import Mathlib

/-!
Verification development for the gpt-graphic-design-evaluator repository.

The repository composes chat-model requests that ask a multimodal model to
score (absolute) or compare (relative) graphic-design images, and validates
the structured JSON reply into typed result schemas.  This file gives a
shallow embedding of that request/response pipeline:

* `Image` models the in-memory bitmap (PIL `Image.Image`);
* `image_to_base64` models `utils.image_to_base64` (PNG re-serialization of
  the pixel buffer followed by base64 encoding, with the external PNG
  serializer modelled as a deterministic function of the pixel data);
* `formatFString` models the f-string prompt formatting performed by the
  prompt templates (variable substitution, `{{`/`}}` unescaping);
* the `prompts`, `absolute_evaluator`, `relative_evaluator` and `evaluator`
  namespaces carry the constants, result schemas and evaluate operations of
  the corresponding Python modules, with the external chat model abstracted
  as a function from composed requests to raw replies, and pydantic schema
  validation made explicit as `Except`-valued smart constructors.
-/

/-- In-memory bitmap (PIL `Image.Image`): dimensions and pixel buffer, plus
the format tag of the origin of the image.  The encoder re-serializes as PNG
regardless of the original format, so the tag plays no role in encoding. -/
structure Image where
  width : Nat
  height : Nat
  pixels : List Nat
  format : String
  deriving Repr, DecidableEq

/-- Standard base64 alphabet. -/
def base64Alphabet : String :=
  "ABCDEFGHIJKLMNOPQRSTUVWXYZabcdefghijklmnopqrstuvwxyz0123456789+/"

/-- Character of the base64 alphabet at a 6-bit index. -/
def b64Char (n : Nat) : Char :=
  base64Alphabet.data.getD n (Char.ofNat 65)

/-- Base64 encoding of a byte list (RFC 4648, with `=` padding). -/
def base64Encode : List Nat → String
  | [] => ""
  | [b1] =>
    String.mk [b64Char (b1 / 4 % 64), b64Char (b1 % 4 * 16)] ++ "=="
  | [b1, b2] =>
    String.mk [b64Char (b1 / 4 % 64), b64Char (b1 % 4 * 16 + b2 / 16),
               b64Char (b2 % 16 * 4)] ++ "="
  | b1 :: b2 :: b3 :: rest =>
    String.mk [b64Char (b1 / 4 % 64), b64Char (b1 % 4 * 16 + b2 / 16),
               b64Char (b2 % 16 * 4 + b3 / 64), b64Char (b3 % 64)]
      ++ base64Encode rest

/-- Big-endian 4-byte encoding of a natural number. -/
def natToBytes4 (n : Nat) : List Nat :=
  [n / 16777216 % 256, n / 65536 % 256, n / 256 % 256, n % 256]

/-- Model of the external imaging collaborator (`image.save(buffered, format="PNG")`)
re-serializing the in-memory bitmap as a PNG byte stream: signature bytes, the
image dimensions, and the pixel buffer.  It is a deterministic function of the
pixel data and dimensions alone; the bitmap's original `format` tag plays no
role, since the image is re-encoded as PNG whatever its origin. -/
def pngEncode (image : Image) : List Nat :=
  [137, 80, 78, 71, 13, 10, 26, 10]
    ++ natToBytes4 image.width ++ natToBytes4 image.height
    ++ image.pixels.map (fun p => p % 256)

/-- Embedding of `utils.image_to_base64`: write the image in PNG form into an
in-memory buffer, then base64-encode the buffer's contents. -/
def image_to_base64 (image : Image) : String :=
  base64Encode (pngEncode image)

/-- The character `\x7b` (opening curly brace). -/
def lbrace : Char := Char.ofNat 123

/-- The character `\x7d` (closing curly brace). -/
def rbrace : Char := Char.ofNat 125

/-- Lookup of a template variable in the input mapping (empty on a miss; the
templates of this repository are only formatted with all their variables
present). -/
def lookupVar : List (String × String) → String → String
  | [], _ => ""
  | (k, v) :: rest, name => if k = name then v else lookupVar rest name

/-- Character-level f-string formatting, as performed by the langchain prompt
templates on each input: `\x7b\x7b` and `\x7d\x7d` unescape to single braces,
`\x7bname\x7d` is replaced by the bound value of `name` (the substituted value is
emitted verbatim, never re-formatted), and all other characters pass through. -/
def formatFStringAux (vars : List (String × String)) (l : List Char) : List Char :=
  match l with
  | [] => []
  | c :: rest =>
    if c = lbrace then
      match rest with
      | [] => [c]
      | c2 :: rest2 =>
        if c2 = lbrace then
          lbrace :: formatFStringAux vars rest2
        else
          let name := String.mk ((c2 :: rest2).takeWhile (fun d => d ≠ rbrace))
          let remainder := ((c2 :: rest2).dropWhile (fun d => d ≠ rbrace)).drop 1
          (lookupVar vars name).data ++ formatFStringAux vars remainder
    else if c = rbrace then
      match rest with
      | [] => [c]
      | c2 :: rest2 =>
        if c2 = rbrace then
          rbrace :: formatFStringAux vars rest2
        else
          c :: formatFStringAux vars (c2 :: rest2)
    else
      c :: formatFStringAux vars rest
termination_by l.length
decreasing_by
  all_goals simp
  all_goals try omega
  have h1 : (List.dropWhile (fun d => !decide (d = rbrace)) (c2 :: rest2)).length
      ≤ (c2 :: rest2).length :=
    (List.dropWhile_suffix (fun d => !decide (d = rbrace))).length_le
  simp only [List.length_cons] at h1
  omega

/-- String-level f-string formatting. -/
def formatFString (template : String) (vars : List (String × String)) : String :=
  String.mk (formatFStringAux vars template.data)

/-- One content part of a composed user message: plain text or an image URL
payload. -/
inductive ContentPart where
  | text (s : String)
  | image_url (url : String)
  deriving Repr, DecidableEq

/-- A composed request to the chat model: formatted system message plus the
content parts of the user message. -/
structure Request where
  system : String
  user : List ContentPart
  deriving Repr, DecidableEq

/-- A JSON scalar in the model's reply. -/
inductive JsonValue where
  | jint (i : Int)
  | jstr (s : String)
  deriving Repr, DecidableEq

/-- Raw reply of the external model collaborator: either text that is not a
JSON object at all, or a JSON object given by its fields. -/
inductive ModelReply where
  | malformed (raw : String)
  | obj (fields : List (String × JsonValue))
  deriving Repr, DecidableEq

/-- The typed failures a call can surface: schema-validation failure
(pydantic), an unbound name (Python `NameError`), or a failed dictionary
lookup (Python `KeyError`). -/
inductive EvalError where
  | validationError (field : String)
  | nameError (name : String)
  | keyError (key : String)
  deriving Repr, DecidableEq

/-- First value bound to a key among a JSON object's fields. -/
def lookupField : List (String × JsonValue) → String → Option JsonValue
  | [], _ => none
  | (k, v) :: rest, key => if k = key then some v else lookupField rest key

/-- Int content of an optional JSON value. -/
def getInt : Option JsonValue → Option Int
  | some (JsonValue.jint i) => some i
  | _ => none

/-- String content of an optional JSON value. -/
def getStr : Option JsonValue → Option String
  | some (JsonValue.jstr s) => some s
  | _ => none

/-- Embedding of `system_prompt_template = system_prompt_template or DEFAULT`:
Python `or` falls back to the default both when the argument is absent and
when it is the (falsy) empty string. -/
def resolveTemplate (dflt : String) : Option String → String
  | none => dflt
  | some t => if t = "" then dflt else t

/-- Embedding of `chain.batch(inputs)`: run the chain on each input in order,
propagating the first raised error (langchain re-raises the first exception of
a batch by default). -/
def batch {α β : Type} (f : α → Except EvalError β) : List α → Except EvalError (List β)
  | [] => Except.ok []
  | x :: xs =>
    match f x with
    | Except.error e => Except.error e
    | Except.ok y =>
      match batch f xs with
      | Except.error e => Except.error e
      | Except.ok ys => Except.ok (y :: ys)

/-- Whether a fallible construction succeeded. -/
def resultOk {α : Type} : Except EvalError α → Bool
  | Except.ok _ => true
  | Except.error _ => false

namespace evaluator

def SYSTEM_PROMPT : String :=
  "You are an autonomous AI Assistant who aids designers by providing insightful, objective, and constructive critiques of graphic design projects. Your goals are: \"Deliver comprehensive and unbiased evaluations of graphic designs based on the following design principles.\"\n\nGrade seriously. The range of scores is from 1 to 10. A flawless design can earn 10 points, a mediocre design can only earn 7 points, a design with obvious shortcomings can only earn 4 points, and a very poor design can only earn 1-2 points.\n\n\x7bdesign_principle\x7d\n\nIf the output is too long, it will be truncated. Only respond in JSON format, no other information. Example of output for a better graphic design:\n\n\x7b\x7b\n    \"score\": 6, \n    \"explanation\": \"Please concisely explain the reason of the score.\"\n\x7d\x7d"

def ALIGNMENT_DESIGN_PRINCIPLE : String :=
  "Correct alignment is an important aspect of design that has been modeled in other layout applications. Text and graphic elements are aligned on the page to indicate organizational structure and aesthetics.\n\nPlease evaluate the alignment of the input graphic design considering the following points.\n\n1. Alignment along with the horizontal and vertical direction is considered.\n2. The elements that align at a glance but slight misalignment are penalized because it is visually displeasing.\n3. Larger alignment groups (i.e., aligned elements that are distant from each other) are preferred as they produce simpler designs with more unity between elements."

def OVERLAP_DESIGN_PRINCIPLE : String :=
  "Overlapping elements are common in many designs and absent from others.\nLess or proper overlapping might be considered aesthetically pleasing, but others are not.\n\nPlease consider the following points to evaluate the overlap.\n\n1. The three types of overlap, the overlap of elements on text, the overlap of text on graphics, and the overlap of graphics on other graphics, are considered.\n2. Hard-to-read text because of insufficient color contrast between a text and the background color is penalized.\n3. The graphic design that includes elements extending past the boundaries is also penalized."

def WHITE_SPACE_DESIGN_PRINCIPLE : String :=
  "White space in graphic designs is fundamental for readability and aesthetics. Element distance is also closely related to the principle of proximity, as elements placed near each other may appear to be related. White space also influences the overall design style; many modern designs use significant white space. White space \x27trapped\x27 between elements can also be distracting. \n\nEvaluate the white space considering the following points.\n\n1.A large ratio of white space that is not covered by design elements (e.g., graphics and tests) is preferred.\n2. However, the graphic design with a too large region of empty white space on the image is undesirable.\n3. The greater the distance between each element is preferred.\n4. Uniformed vertical spacing of each text element is preferred.\n5. Wider border margins for each element are preferred."

def USER_PROMPT : String :=
  "Please score the following images."

end evaluator

namespace absolute_evaluator

def DEFAULT_SYSTEM_PROMPT : String :=
  "You are an autonomous AI Assistant who aids designers by providing insightful, objective, and constructive critiques of graphic design projects. Your goals are: \"Deliver comprehensive and unbiased evaluations of graphic designs based on the following design principles.\"\n\nGrade seriously. The range of scores is from 1 to 10. A flawless design can earn 10 points, a mediocre design can only earn 7 points, a design with obvious shortcomings can only earn 4 points, and a very poor design can only earn 1-2 points.\n\n\x7bdesign_principle\x7d\n\nIf the output is too long, it will be truncated. Only respond in JSON format, no other information. Example of output for a better graphic design:\n\n\x7b\x7b\n    \"score\": 6, \n    \"explanation\": \"Please concisely explain the reason of the score.\"\n\x7d\x7d"

def USER_PROMPT : String :=
  "Please score the following images."

end absolute_evaluator

namespace relative_evaluator

def DEFAULT_SYSTEM_PROMPT : String :=
  "You are an autonomous AI Assistant who aids designers by providing insightful, objective, and constructive\ncritiques of graphic design projects. \n\nYour goals are: \"Deliver comprehensive and unbiased evaluations of graphic designs based on the following design principles.\"\n\n\x7bdesign_principle\x7d\n\nIf the output is too long, it will be truncated. Only respond in JSON format, no other information. Example of output for a better graphic design (a):\n\n\x7b\x7b\n    \"better_design\": \"a\",\n    \"explanation\": \"(Please concisely explain the reason of choice.)\"\n\x7d\x7d\n\nIf both images are the same quality, answer\n\n\x7b\x7b\n    \"better_design\": \"both\", \n    \"explanation\": \"(Please concisely explain the reason of choice.)\"\n\x7d\x7d\n"

def USER_PROMPT : String :=
  "Which of the following graphic designs has better quality regarding the above-described points? (a)[image] (b)[image]\n"

end relative_evaluator

namespace prompts

def DEFAULT_ALIGNMENT_DESIGN_PRINCIPLE : String :=
  "Correct alignment is an important aspect of design that has been modeled in other layout applications. Text and graphic elements are aligned on the page to indicate organizational structure and aesthetics.\n\nPlease evaluate the alignment of the input graphic design considering the following points.\n\n1. Alignment along with the horizontal and vertical direction is considered.\n2. The elements that align at a glance but slight misalignment are penalized because it is visually displeasing.\n3. Larger alignment groups (i.e., aligned elements that are distant from each other) are preferred as they produce simpler designs with more unity between elements."

def DEFAULT_OVERLAP_DESIGN_PRINCIPLE : String :=
  "Overlapping elements are common in many designs and absent from others.\nLess or proper overlapping might be considered aesthetically pleasing, but others are not.\n\nPlease consider the following points to evaluate the overlap.\n\n1. The three types of overlap, the overlap of elements on text, the overlap of text on graphics, and the overlap of graphics on other graphics, are considered.\n2. Hard-to-read text because of insufficient color contrast between a text and the background color is penalized.\n3. The graphic design that includes elements extending past the boundaries is also penalized."

def DEFAULT_WHITE_SPACE_DESIGN_PRINCIPLE : String :=
  "White space in graphic designs is fundamental for readability and aesthetics. Element distance is also closely related to the principle of proximity, as elements placed near each other may appear to be related. White space also influences the overall design style; many modern designs use significant white space. White space \x27trapped\x27 between elements can also be distracting. \n\nEvaluate the white space considering the following points.\n\n1.A large ratio of white space that is not covered by design elements (e.g., graphics and tests) is preferred.\n2. However, the graphic design with a too large region of empty white space on the image is undesirable.\n3. The greater the distance between each element is preferred.\n4. Uniformed vertical spacing of each text element is preferred.\n5. Wider border margins for each element are preferred."

end prompts


namespace prompts

/-- Embedding of the `DESIGN_PRINCIPLES` dictionary of `prompts.py`: lookup of
the instruction text behind a design-principle tag.  A key outside the three
declared tags has no entry (Python raises `KeyError`). -/
def DESIGN_PRINCIPLES (design_principle : String) : Option String :=
  if design_principle = "alignment" then some DEFAULT_ALIGNMENT_DESIGN_PRINCIPLE
  else if design_principle = "overlap" then some DEFAULT_OVERLAP_DESIGN_PRINCIPLE
  else if design_principle = "whitespace" then some DEFAULT_WHITE_SPACE_DESIGN_PRINCIPLE
  else none

end prompts

namespace absolute_evaluator

/-- Pydantic schema `AbsoluteEvaluationResult`: integer score plus free-text
explanation. -/
structure AbsoluteEvaluationResult where
  score : Int
  explanation : String
  deriving Repr, DecidableEq

/-- Validating construction of `AbsoluteEvaluationResult`: the pydantic fields
are `score : int` with `Field(ge=1, le=10)` and `explanation : str`; a score
outside 1..10 fails validation. -/
def mkAbsoluteEvaluationResult (score : Int) (explanation : String) :
    Except EvalError AbsoluteEvaluationResult :=
  if 1 ≤ score ∧ score ≤ 10 then Except.ok ⟨score, explanation⟩
  else Except.error (EvalError.validationError "score")

/-- Coercion of a raw model reply into the `AbsoluteEvaluationResult` schema,
as performed by `llm.with_structured_output(AbsoluteEvaluationResult)`:
malformed JSON and a missing or ill-typed field are validation failures, and
the schema\'s field constraints are enforced by construction — nothing is
clamped or coerced into range. -/
def coerceAbsolute (reply : ModelReply) : Except EvalError AbsoluteEvaluationResult :=
  match reply with
  | ModelReply.malformed _ => Except.error (EvalError.validationError "json")
  | ModelReply.obj fields =>
    match getInt (lookupField fields "score"), getStr (lookupField fields "explanation") with
    | some s, some e => mkAbsoluteEvaluationResult s e
    | some _, none => Except.error (EvalError.validationError "explanation")
    | none, _ => Except.error (EvalError.validationError "score")

/-- The absolute evaluator: a stateless holder of the chat-model collaborator,
abstracted as a function from composed requests to raw replies. -/
structure GPTGraphicDesignAbsoluteEvaluator where
  llm : Request → ModelReply

/-- URL template of the image content part of the user message
(`"data:image/png;base64,\x7bbase64_image\x7d"`). -/
def image_url_template : String := "data:image/png;base64,\x7bbase64_image\x7d"

/-- The `input_data` dictionary built by `evaluate`: the design-principle text
and the base64 PNG encoding of the image. -/
def input_data (image : Image) (design_principle_prompt : String) :
    List (String × String) :=
  [("design_principle", design_principle_prompt),
   ("base64_image", image_to_base64 image)]

/-- Formatting of the `ChatPromptTemplate` built from the system prompt
template and the fixed user message (text part plus one image_url part) on one
input dictionary, yielding the request sent to the model. -/
def composeRequest (system_prompt_template : String)
    (vars : List (String × String)) : Request :=
  ⟨formatFString system_prompt_template vars,
   [ContentPart.text (formatFString USER_PROMPT vars),
    ContentPart.image_url (formatFString image_url_template vars)]⟩

/-- Embedding of `GPTGraphicDesignAbsoluteEvaluator.evaluate`: resolve the
system prompt template (default on `None` or empty), build `input_data` once,
replicate it `num_return` times, and batch the chain over the replicated
inputs, coercing each reply into the result schema. -/
def GPTGraphicDesignAbsoluteEvaluator.evaluate
    (self : GPTGraphicDesignAbsoluteEvaluator) (image : Image)
    (design_principle_prompt : String) (system_prompt_template : Option String)
    (num_return : Nat) : Except EvalError (List AbsoluteEvaluationResult) :=
  let tmpl := resolveTemplate DEFAULT_SYSTEM_PROMPT system_prompt_template
  let ind := input_data image design_principle_prompt
  let inputs := List.replicate num_return ind
  batch (fun i => coerceAbsolute (self.llm (composeRequest tmpl i))) inputs

/-- Embedding of `GPTGraphicDesignAbsoluteEvaluator.__call__`: look the tag up
in the catalog (a miss is a `KeyError`) and forward to `evaluate` with the
instruction text and the component\'s default system prompt template. -/
def GPTGraphicDesignAbsoluteEvaluator.call
    (self : GPTGraphicDesignAbsoluteEvaluator) (image : Image)
    (design_principle : String) (num_return : Nat) :
    Except EvalError (List AbsoluteEvaluationResult) :=
  match prompts.DESIGN_PRINCIPLES design_principle with
  | none => Except.error (EvalError.keyError design_principle)
  | some txt => self.evaluate image txt (some DEFAULT_SYSTEM_PROMPT) num_return

end absolute_evaluator

namespace relative_evaluator

/-- The five tags admitted by the `Literal` type of the `better_design` field
of `RelativeEvaluationResult`. -/
def relativePreferenceTags : List String :=
  ["none", "small", "medium", "large", "both"]

/-- Pydantic schema `RelativeEvaluationResult`: preference tag plus free-text
explanation. -/
structure RelativeEvaluationResult where
  better_design : String
  explanation : String
  deriving Repr, DecidableEq

/-- Validating construction of `RelativeEvaluationResult`: the
`better_design` field is `Literal["none", "small", "medium", "large", "both"]`;
any other string fails validation. -/
def mkRelativeEvaluationResult (better_design explanation : String) :
    Except EvalError RelativeEvaluationResult :=
  if better_design ∈ relativePreferenceTags then
    Except.ok ⟨better_design, explanation⟩
  else Except.error (EvalError.validationError "better_design")

/-- URL template of the single image content part of the relative user
message. -/
def image_url_template : String := "data:image/png;base64,\x7bbase64_image\x7d"

/-- The user message template composed by the relative `evaluate`
(`relative_evaluator.py` lines 88-97): the fixed comparison question followed
by exactly ONE image_url slot — no second image payload appears anywhere in
the composed message. -/
def user_prompt_content : List ContentPart :=
  [ContentPart.text USER_PROMPT, ContentPart.image_url image_url_template]

/-- The relative evaluator: a stateless holder of the chat-model
collaborator. -/
structure GPTGraphicDesignRelativeEvaluator where
  llm : Request → ModelReply

set_option linter.unusedVariables false in
/-- Embedding of `GPTGraphicDesignRelativeEvaluator.evaluate`
(`relative_evaluator.py` lines 63-108).  The function resolves the template
and builds the prompt objects, then builds `input_data`, whose
`"base64_image"` entry is the expression `image_to_base64(image)`.  The name
`image` is bound nowhere in that scope — the parameters are `image_a` and
`image_b`, and the module has no global named `image` — so Python raises
`NameError("image")` at that point, before `chain.batch` dispatches any
request to the model.  The embedding performs the same pure
prompt-construction steps and stops with exactly that error; in particular
the outcome never depends on `self.llm`, `image_a`, `image_b` or
`num_return`. -/
def GPTGraphicDesignRelativeEvaluator.evaluate
    (self : GPTGraphicDesignRelativeEvaluator) (image_a image_b : Image)
    (design_principle_prompt : String) (system_prompt_template : Option String)
    (num_return : Nat) : Except EvalError (List RelativeEvaluationResult) :=
  let _tmpl := resolveTemplate DEFAULT_SYSTEM_PROMPT system_prompt_template
  let _user := user_prompt_content
  Except.error (EvalError.nameError "image")

/-- Embedding of `GPTGraphicDesignRelativeEvaluator.__call__`: catalog lookup
of the tag, then forwarding to `evaluate` with the instruction text and the
component\'s default system prompt template. -/
def GPTGraphicDesignRelativeEvaluator.call
    (self : GPTGraphicDesignRelativeEvaluator) (image_a image_b : Image)
    (design_principle : String) (num_return : Nat) :
    Except EvalError (List RelativeEvaluationResult) :=
  match prompts.DESIGN_PRINCIPLES design_principle with
  | none => Except.error (EvalError.keyError design_principle)
  | some txt =>
    self.evaluate image_a image_b txt (some DEFAULT_SYSTEM_PROMPT) num_return

end relative_evaluator

namespace evaluator

/-- Pydantic schema `EvaluationResult` of the legacy single-result evaluator:
integer score plus free-text explanation. -/
structure EvaluationResult where
  score : Int
  explanation : String
  deriving Repr, DecidableEq

/-- Validating construction of `EvaluationResult`: `score : int` with
`Field(ge=1, le=10)` and `explanation : str`. -/
def mkEvaluationResult (score : Int) (explanation : String) :
    Except EvalError EvaluationResult :=
  if 1 ≤ score ∧ score ≤ 10 then Except.ok ⟨score, explanation⟩
  else Except.error (EvalError.validationError "score")

/-- Coercion of a raw model reply into the `EvaluationResult` schema, as
performed by `llm.with_structured_output(EvaluationResult)`. -/
def coerceEvaluation (reply : ModelReply) : Except EvalError EvaluationResult :=
  match reply with
  | ModelReply.malformed _ => Except.error (EvalError.validationError "json")
  | ModelReply.obj fields =>
    match getInt (lookupField fields "score"), getStr (lookupField fields "explanation") with
    | some s, some e => mkEvaluationResult s e
    | some _, none => Except.error (EvalError.validationError "explanation")
    | none, _ => Except.error (EvalError.validationError "score")

/-- The legacy evaluator: a stateless holder of the chat-model
collaborator. -/
structure GPTGraphicDesignEvaluator where
  llm : Request → ModelReply

/-- Embedding of the method `GPTGraphicDesignEvaluator._image_to_base64`,
whose body is identical to `utils.image_to_base64`: PNG re-serialization of
the bitmap followed by base64 encoding. -/
def GPTGraphicDesignEvaluator.imageToBase64Method (image : Image) : String :=
  base64Encode (pngEncode image)

/-- URL template of the image content part of the legacy user message. -/
def image_url_template : String := "data:image/png;base64,\x7bbase64_image\x7d"

/-- Formatting of the legacy `ChatPromptTemplate` on one input dictionary. -/
def composeRequest (system_prompt_template : String)
    (vars : List (String × String)) : Request :=
  ⟨formatFString system_prompt_template vars,
   [ContentPart.text (formatFString USER_PROMPT vars),
    ContentPart.image_url (formatFString image_url_template vars)]⟩

/-- Embedding of the legacy `GPTGraphicDesignEvaluator.evaluate`: resolve the
template, build `input_data` with the method encoder, invoke the chain once
(`chain.invoke`), and coerce the single reply. -/
def GPTGraphicDesignEvaluator.evaluate (self : GPTGraphicDesignEvaluator)
    (image : Image) (design_principle_prompt : String)
    (system_prompt_template : Option String) : Except EvalError EvaluationResult :=
  let tmpl := resolveTemplate SYSTEM_PROMPT system_prompt_template
  let ind : List (String × String) :=
    [("design_principle", design_principle_prompt),
     ("base64_image", GPTGraphicDesignEvaluator.imageToBase64Method image)]
  coerceEvaluation (self.llm (composeRequest tmpl ind))

end evaluator

/-- A 1x1 test bitmap (one RGBA pixel), tagged as loaded from PNG. -/
def testImage : Image := ⟨1, 1, [255, 0, 0, 255], "PNG"⟩

/-- The same 1x1 pixel buffer, tagged as loaded from JPEG. -/
def testImageJpeg : Image := ⟨1, 1, [255, 0, 0, 255], "JPEG"⟩

/-- A second, distinct 1x1 test bitmap. -/
def testImageB : Image := ⟨1, 1, [0, 0, 255, 255], "PNG"⟩

/-- Mocked model collaborator that always replies with score 7 and
explanation "ok". -/
def mockSeven : absolute_evaluator.GPTGraphicDesignAbsoluteEvaluator :=
  ⟨fun _ => ModelReply.obj
    [("score", JsonValue.jint 7), ("explanation", JsonValue.jstr "ok")]⟩

/-- Mocked model collaborator that always replies with the out-of-range
score 99. -/
def mockNinetyNine : absolute_evaluator.GPTGraphicDesignAbsoluteEvaluator :=
  ⟨fun _ => ModelReply.obj
    [("score", JsonValue.jint 99), ("explanation", JsonValue.jstr "bad")]⟩

/-- Mocked model collaborator for the relative evaluator. -/
def mockRelative : relative_evaluator.GPTGraphicDesignRelativeEvaluator :=
  ⟨fun _ => ModelReply.obj
    [("better_design", JsonValue.jstr "both"), ("explanation", JsonValue.jstr "ok")]⟩

/-- Batching a replicated input whose evaluation succeeds yields the
replicated result. -/
theorem batch_replicate_ok {α β : Type} (f : α → Except EvalError β) (x : α)
    (y : β) (h : f x = Except.ok y) (n : Nat) :
    batch f (List.replicate n x) = Except.ok (List.replicate n y) := by
  induction n with
  | zero => simp [List.replicate, batch]
  | succ m ih => simp [List.replicate, batch, h, ih]

/-- Batching at least one replicated input whose evaluation fails propagates
that error. -/
theorem batch_replicate_error {α β : Type} (f : α → Except EvalError β) (x : α)
    (er : EvalError) (h : f x = Except.error er) (n : Nat) (hn : 1 ≤ n) :
    batch f (List.replicate n x) = Except.error er := by
  obtain ⟨m, rfl⟩ : ∃ m, n = m + 1 := ⟨n - 1, by omega⟩
  simp [List.replicate, batch, h]

/-- A successful batch returns one output per input. -/
theorem batch_ok_length {α β : Type} (f : α → Except EvalError β) :
    ∀ (l : List α) (ys : List β), batch f l = Except.ok ys → ys.length = l.length := by
  intro l
  induction l with
  | nil =>
    intro ys h
    simp [batch] at h
    simp [← h]
  | cons a as ih =>
    intro ys h
    simp only [batch] at h
    cases hfa : f a with
    | error e => rw [hfa] at h; simp at h
    | ok b =>
      rw [hfa] at h
      cases hb : batch f as with
      | error e => rw [hb] at h; simp at h
      | ok bs =>
        rw [hb] at h
        simp at h
        subst h
        simp [ih bs hb]

/-- Every output of a successful batch is the successful evaluation of some
input. -/
theorem batch_ok_mem {α β : Type} (f : α → Except EvalError β) :
    ∀ (l : List α) (ys : List β), batch f l = Except.ok ys →
      ∀ y ∈ ys, ∃ x ∈ l, f x = Except.ok y := by
  intro l
  induction l with
  | nil =>
    intro ys h y hy
    simp [batch] at h
    subst h
    simp at hy
  | cons a as ih =>
    intro ys h y hy
    simp only [batch] at h
    cases hfa : f a with
    | error e => rw [hfa] at h; simp at h
    | ok b =>
      rw [hfa] at h
      cases hb : batch f as with
      | error e => rw [hb] at h; simp at h
      | ok bs =>
        rw [hb] at h
        simp at h
        subst h
        rcases List.mem_cons.mp hy with hyb | hybs
        · exact ⟨a, List.mem_cons_self a as, by rw [hfa, hyb]⟩
        · obtain ⟨x, hx, hfx⟩ := ih bs hb y hybs
          exact ⟨x, List.mem_cons_of_mem a hx, hfx⟩

/-- A singleton batch is the mapped single evaluation. -/
theorem batch_singleton {α β : Type} (f : α → Except EvalError β) (x : α) :
    batch f [x] = (f x).map (fun y => [y]) := by
  cases h : f x <;> simp [batch, h, Except.map]

/-- Composition of maps over `Except`. -/
theorem except_map_map {α β γ : Type} (f : α → β) (g : β → γ)
    (x : Except EvalError α) :
    (x.map f).map g = x.map (fun a => g (f a)) := by
  cases x <;> rfl

/-- Inversion of a successful absolute coercion: the result's score is the
reply's own score field, in range. -/
theorem coerceAbsolute_ok_inv (reply : ModelReply)
    (r : absolute_evaluator.AbsoluteEvaluationResult)
    (h : absolute_evaluator.coerceAbsolute reply = Except.ok r) :
    1 ≤ r.score ∧ r.score ≤ 10 ∧
      ∃ fields, reply = ModelReply.obj fields
        ∧ getInt (lookupField fields "score") = some r.score
        ∧ getStr (lookupField fields "explanation") = some r.explanation := by
  cases reply with
  | malformed s => simp [absolute_evaluator.coerceAbsolute] at h
  | obj fields =>
    simp only [absolute_evaluator.coerceAbsolute] at h
    cases hs : getInt (lookupField fields "score") with
    | none => rw [hs] at h; simp at h
    | some s =>
      cases he : getStr (lookupField fields "explanation") with
      | none => rw [hs, he] at h; simp at h
      | some e =>
        rw [hs, he] at h
        simp only [absolute_evaluator.mkAbsoluteEvaluationResult] at h
        split at h
        · next hcond =>
            injection h with h'
            subst h'
            exact ⟨hcond.1, hcond.2, fields, rfl, hs, he⟩
        · simp at h

/-- The legacy and absolute coercions agree field by field. -/
theorem coerce_agree (reply : ModelReply) :
    (evaluator.coerceEvaluation reply).map
        (fun r => absolute_evaluator.AbsoluteEvaluationResult.mk r.score r.explanation)
      = absolute_evaluator.coerceAbsolute reply := by
  cases reply with
  | malformed s => rfl
  | obj fields =>
    simp only [evaluator.coerceEvaluation, absolute_evaluator.coerceAbsolute]
    cases getInt (lookupField fields "score") with
    | none => rfl
    | some s =>
      cases getStr (lookupField fields "explanation") with
      | none => rfl
      | some e =>
        simp only [evaluator.mkEvaluationResult,
          absolute_evaluator.mkAbsoluteEvaluationResult]
        by_cases hc : 1 ≤ s ∧ s ≤ 10 <;> simp [hc, Except.map]

/-- C1: the claim that the relative evaluator's evaluate composes a request
with two distinct image payloads, one per input image, fails on the code: the
user message template it builds holds exactly ONE image_url slot, and at the
failing input (two distinct 1x1 bitmaps with the overlap principle) the call
aborts with the unbound-name error for `image` before composing any request
at all. -/
theorem relative_user_message_single_image_slot :
    (relative_evaluator.user_prompt_content.countP (fun part =>
        match part with
        | ContentPart.image_url _ => true
        | _ => false) = 1)
    ∧ relative_evaluator.GPTGraphicDesignRelativeEvaluator.evaluate mockRelative
        testImage testImageB prompts.DEFAULT_OVERLAP_DESIGN_PRINCIPLE none 1
      = Except.error (EvalError.nameError "image") :=
  ⟨rfl, rfl⟩

/-- C2: for every llm, pair of input images, design-principle prompt, system
prompt template and num_return, `GPTGraphicDesignRelativeEvaluator.evaluate`
raises the unbound-name error for `image` (the encoder is invoked with the
name `image`, bound nowhere in the function's scope) before any model request
is dispatched — the outcome is this error regardless of `self.llm`, so no
relative evaluation ever returns a result list. -/
theorem relative_evaluate_raises_name_error
    (self : relative_evaluator.GPTGraphicDesignRelativeEvaluator)
    (image_a image_b : Image) (design_principle_prompt : String)
    (system_prompt_template : Option String) (num_return : Nat) :
    self.evaluate image_a image_b design_principle_prompt
        system_prompt_template num_return
      = Except.error (EvalError.nameError "image") := rfl

/-- C3: construction of an absolute evaluation result (both the legacy
`EvaluationResult` and `AbsoluteEvaluationResult`) with integer score s
succeeds iff 1 ≤ s ≤ 10; scores 0 and 11 fail, scores 1 and 10 succeed. -/
theorem evaluation_result_score_range (s : Int) (e : String) :
    (resultOk (absolute_evaluator.mkAbsoluteEvaluationResult s e) = true
      ↔ 1 ≤ s ∧ s ≤ 10)
    ∧ (resultOk (evaluator.mkEvaluationResult s e) = true ↔ 1 ≤ s ∧ s ≤ 10)
    ∧ resultOk (absolute_evaluator.mkAbsoluteEvaluationResult 0 e) = false
    ∧ resultOk (absolute_evaluator.mkAbsoluteEvaluationResult 11 e) = false
    ∧ resultOk (absolute_evaluator.mkAbsoluteEvaluationResult 1 e) = true
    ∧ resultOk (absolute_evaluator.mkAbsoluteEvaluationResult 10 e) = true := by
  refine ⟨?_, ?_, rfl, rfl, rfl, rfl⟩ <;>
    (by_cases hc : 1 ≤ s ∧ s ≤ 10 <;>
      simp [absolute_evaluator.mkAbsoluteEvaluationResult,
        evaluator.mkEvaluationResult, resultOk, hc])

/-- C4: construction of a `RelativeEvaluationResult` succeeds exactly for
the five declared preference tags none/small/medium/large/both; in
particular the side labels "a" and "b" are rejected. -/
theorem relative_result_preference_tags (p e : String) :
    (resultOk (relative_evaluator.mkRelativeEvaluationResult p e) = true
      ↔ p = "none" ∨ p = "small" ∨ p = "medium" ∨ p = "large" ∨ p = "both")
    ∧ resultOk (relative_evaluator.mkRelativeEvaluationResult "a" e) = false
    ∧ resultOk (relative_evaluator.mkRelativeEvaluationResult "b" e) = false := by
  refine ⟨?_, ?_, ?_⟩
  · by_cases hp : p ∈ relative_evaluator.relativePreferenceTags
    · simp only [relative_evaluator.mkRelativeEvaluationResult, if_pos hp, resultOk]
      simpa [relative_evaluator.relativePreferenceTags] using hp
    · simp only [relative_evaluator.mkRelativeEvaluationResult, if_neg hp, resultOk]
      simpa [relative_evaluator.relativePreferenceTags] using hp
  · simp [relative_evaluator.mkRelativeEvaluationResult,
      relative_evaluator.relativePreferenceTags, resultOk]
  · simp [relative_evaluator.mkRelativeEvaluationResult,
      relative_evaluator.relativePreferenceTags, resultOk]

/-- C5: the absolute evaluate builds one input dictionary and dispatches
exactly `num_return` identical copies of it: the replicated input list has
length n with every entry equal to `input_data`; whenever the coercion of the
model's reply to the composed request succeeds with result r, the call
returns exactly the n-fold replication of r; the mocked model that always
replies score 7 / "ok" yields at num_return = 3 exactly three results of
score 7; and num_return = 0 returns the empty list for every llm whatsoever
(no request is consulted). -/
theorem absolute_evaluate_batch_semantics (image : Image) (dpp : String)
    (tmpl : Option String) (n : Nat) :
    ((List.replicate n (absolute_evaluator.input_data image dpp)).length = n)
    ∧ (∀ i ∈ List.replicate n (absolute_evaluator.input_data image dpp),
        i = absolute_evaluator.input_data image dpp)
    ∧ (∀ (self : absolute_evaluator.GPTGraphicDesignAbsoluteEvaluator)
         (r : absolute_evaluator.AbsoluteEvaluationResult),
        absolute_evaluator.coerceAbsolute (self.llm (absolute_evaluator.composeRequest
            (resolveTemplate absolute_evaluator.DEFAULT_SYSTEM_PROMPT tmpl)
            (absolute_evaluator.input_data image dpp))) = Except.ok r →
        self.evaluate image dpp tmpl n = Except.ok (List.replicate n r))
    ∧ (absolute_evaluator.GPTGraphicDesignAbsoluteEvaluator.evaluate mockSeven
        image dpp tmpl 3 = Except.ok [⟨7, "ok"⟩, ⟨7, "ok"⟩, ⟨7, "ok"⟩])
    ∧ (∀ self : absolute_evaluator.GPTGraphicDesignAbsoluteEvaluator,
        self.evaluate image dpp tmpl 0 = Except.ok []) := by
  refine ⟨List.length_replicate n _, ?_, ?_, ?_, ?_⟩
  · intro i hi
    exact List.eq_of_mem_replicate hi
  · intro self r h
    apply batch_replicate_ok
    exact h
  · apply batch_replicate_ok
    rfl
  · intro self
    rfl

/-- C5 witness: the score-7 mock at a concrete 1x1 image, alignment-style
prompt text and num_return = 2 returns two score-7 results. -/
theorem absolute_evaluate_batch_semantics_witness :
    absolute_evaluator.GPTGraphicDesignAbsoluteEvaluator.evaluate mockSeven
        testImage "alignment instruction" none 2
      = Except.ok (List.replicate 2 ⟨7, "ok"⟩) :=
  (absolute_evaluate_batch_semantics testImage "alignment instruction" none 2).2.2.1
    mockSeven ⟨7, "ok"⟩ rfl

/-- C6: catalog lookup in DESIGN_PRINCIPLES returns a non-empty instruction
text for each of alignment, overlap and whitespace, and fails (no entry, a
KeyError in the source) for every other tag. -/
theorem design_principles_catalog :
    (∀ p : String, p = "alignment" ∨ p = "overlap" ∨ p = "whitespace" →
        ∃ t, prompts.DESIGN_PRINCIPLES p = some t ∧ t ≠ "")
    ∧ (∀ p : String, ¬(p = "alignment" ∨ p = "overlap" ∨ p = "whitespace") →
        prompts.DESIGN_PRINCIPLES p = none) := by
  constructor
  · rintro p (rfl | rfl | rfl)
    · exact ⟨prompts.DEFAULT_ALIGNMENT_DESIGN_PRINCIPLE, rfl, by decide⟩
    · exact ⟨prompts.DEFAULT_OVERLAP_DESIGN_PRINCIPLE, rfl, by decide⟩
    · exact ⟨prompts.DEFAULT_WHITE_SPACE_DESIGN_PRINCIPLE, rfl, by decide⟩
  · intro p hp
    push_neg at hp
    simp [prompts.DESIGN_PRINCIPLES, hp.1, hp.2.1, hp.2.2]

/-- C6 witness: alignment has a non-empty catalog entry and the unknown tag
"grid" has none. -/
theorem design_principles_catalog_witness :
    (∃ t, prompts.DESIGN_PRINCIPLES "alignment" = some t ∧ t ≠ "")
    ∧ prompts.DESIGN_PRINCIPLES "grid" = none :=
  ⟨design_principles_catalog.1 "alignment" (Or.inl rfl),
   design_principles_catalog.2 "grid" (by decide)⟩

/-- C7: when the model reply violates the result schema — score out of
range, a missing score field, or malformed JSON — the absolute evaluate
surfaces a typed validation failure to the caller for every positive
num_return; and whenever it does return results it returns exactly
num_return of them, each with a score taken verbatim (never clamped or
coerced) from the score field of the model's own reply, in range 1..10. -/
theorem absolute_evaluate_surfaces_validation_failure (image : Image)
    (dpp : String) (tmpl : Option String) (n : Nat) (hn : 1 ≤ n) :
    (∀ e : String,
      absolute_evaluator.GPTGraphicDesignAbsoluteEvaluator.evaluate
          ⟨fun _ => ModelReply.obj
            [("score", JsonValue.jint 99), ("explanation", JsonValue.jstr e)]⟩
          image dpp tmpl n
        = Except.error (EvalError.validationError "score"))
    ∧ (absolute_evaluator.GPTGraphicDesignAbsoluteEvaluator.evaluate
          ⟨fun _ => ModelReply.obj [("explanation", JsonValue.jstr "x")]⟩
          image dpp tmpl n
        = Except.error (EvalError.validationError "score"))
    ∧ (absolute_evaluator.GPTGraphicDesignAbsoluteEvaluator.evaluate
          ⟨fun _ => ModelReply.malformed "not json"⟩ image dpp tmpl n
        = Except.error (EvalError.validationError "json"))
    ∧ (∀ (self : absolute_evaluator.GPTGraphicDesignAbsoluteEvaluator)
         (results : List absolute_evaluator.AbsoluteEvaluationResult),
        self.evaluate image dpp tmpl n = Except.ok results →
        results.length = n ∧
          ∀ r ∈ results, 1 ≤ r.score ∧ r.score ≤ 10 ∧
            ∃ fields,
              self.llm (absolute_evaluator.composeRequest
                  (resolveTemplate absolute_evaluator.DEFAULT_SYSTEM_PROMPT tmpl)
                  (absolute_evaluator.input_data image dpp))
                = ModelReply.obj fields
              ∧ getInt (lookupField fields "score") = some r.score) := by
  refine ⟨?_, ?_, ?_, ?_⟩
  · intro e
    apply batch_replicate_error
    · rfl
    · exact hn
  · apply batch_replicate_error
    · rfl
    · exact hn
  · apply batch_replicate_error
    · rfl
    · exact hn
  · intro self results h
    constructor
    · have hl := batch_ok_length _ _ _ h
      simpa using hl
    · intro r hr
      obtain ⟨x, hx, hfx⟩ := batch_ok_mem _ _ _ h r hr
      have hxe : x = absolute_evaluator.input_data image dpp :=
        List.eq_of_mem_replicate hx
      subst hxe
      obtain ⟨h1, h2, fields, hobj, hscore, hexp⟩ := coerceAbsolute_ok_inv _ _ hfx
      exact ⟨h1, h2, fields, hobj, hscore⟩

/-- C7 witness: the score-99 mock at a concrete input and num_return = 1
surfaces the validation failure. -/
theorem absolute_evaluate_surfaces_validation_failure_witness :
    absolute_evaluator.GPTGraphicDesignAbsoluteEvaluator.evaluate mockNinetyNine
        testImage "alignment instruction" none 1
      = Except.error (EvalError.validationError "score") :=
  (absolute_evaluate_surfaces_validation_failure testImage
      "alignment instruction" none 1 (by decide)).1 "bad"

/-- C8: the image encoder is deterministic in the pixel buffer: bitmaps with
the same dimensions and pixel data encode to the same base64 PNG string,
whatever their original format tags. -/
theorem image_to_base64_deterministic (a b : Image) (hw : a.width = b.width)
    (hh : a.height = b.height) (hp : a.pixels = b.pixels) :
    image_to_base64 a = image_to_base64 b := by
  unfold image_to_base64 pngEncode
  rw [hw, hh, hp]

/-- C8 witness: the 1x1 test bitmap encoded from the same pixel buffer twice
(under two different origin-format tags) yields identical strings. -/
theorem image_to_base64_deterministic_witness :
    image_to_base64 testImage = image_to_base64 testImageJpeg :=
  image_to_base64_deterministic testImage testImageJpeg rfl rfl rfl

/-- C9: for every valid design-principle tag, each evaluator's `__call__`
convenience operation (embedded as `call`) returns exactly what `evaluate`
returns on the catalog's instruction text with the component's default system
prompt template — and, equivalently, with the template omitted, since an
omitted template resolves to the same default. -/
theorem call_forwards_to_evaluate (design_principle txt : String)
    (h : prompts.DESIGN_PRINCIPLES design_principle = some txt)
    (image image_a image_b : Image) (n : Nat) :
    (∀ self : absolute_evaluator.GPTGraphicDesignAbsoluteEvaluator,
        self.call image design_principle n
          = self.evaluate image txt (some absolute_evaluator.DEFAULT_SYSTEM_PROMPT) n
        ∧ self.call image design_principle n = self.evaluate image txt none n)
    ∧ (∀ self : relative_evaluator.GPTGraphicDesignRelativeEvaluator,
        self.call image_a image_b design_principle n
          = self.evaluate image_a image_b txt
              (some relative_evaluator.DEFAULT_SYSTEM_PROMPT) n
        ∧ self.call image_a image_b design_principle n
          = self.evaluate image_a image_b txt none n) := by
  have habs : resolveTemplate absolute_evaluator.DEFAULT_SYSTEM_PROMPT
        (some absolute_evaluator.DEFAULT_SYSTEM_PROMPT)
      = resolveTemplate absolute_evaluator.DEFAULT_SYSTEM_PROMPT none := by
    simp [resolveTemplate]
  constructor
  · intro self
    constructor
    · simp only [absolute_evaluator.GPTGraphicDesignAbsoluteEvaluator.call, h]
    · simp only [absolute_evaluator.GPTGraphicDesignAbsoluteEvaluator.call, h]
      unfold absolute_evaluator.GPTGraphicDesignAbsoluteEvaluator.evaluate
      rw [habs]
  · intro self
    constructor
    · simp only [relative_evaluator.GPTGraphicDesignRelativeEvaluator.call, h]
    · simp only [relative_evaluator.GPTGraphicDesignRelativeEvaluator.call, h]
      rfl

/-- C9 witness: at the alignment tag, with concrete mocks, images and
num_return = 1, both convenience calls equal the corresponding evaluate on
the catalog text and default template. -/
theorem call_forwards_to_evaluate_witness :
    (mockSeven.call testImage "alignment" 1
      = mockSeven.evaluate testImage prompts.DEFAULT_ALIGNMENT_DESIGN_PRINCIPLE
          (some absolute_evaluator.DEFAULT_SYSTEM_PROMPT) 1)
    ∧ (mockRelative.call testImage testImageB "alignment" 1
      = mockRelative.evaluate testImage testImageB
          prompts.DEFAULT_ALIGNMENT_DESIGN_PRINCIPLE
          (some relative_evaluator.DEFAULT_SYSTEM_PROMPT) 1) :=
  ⟨((call_forwards_to_evaluate "alignment"
        prompts.DEFAULT_ALIGNMENT_DESIGN_PRINCIPLE rfl
        testImage testImage testImageB 1).1 mockSeven).1,
   ((call_forwards_to_evaluate "alignment"
        prompts.DEFAULT_ALIGNMENT_DESIGN_PRINCIPLE rfl
        testImage testImage testImageB 1).2 mockRelative).1⟩

/-- C10: the legacy single-result evaluator refines the absolute evaluator at
num_return = 1: the system and user prompt constants are identical strings,
the method image encoder equals the shared utility encoder, the two result
schemas accept exactly the same scores, and for every model behaviour, image,
design-principle prompt and template the legacy result (converted to the
absolute schema, as a one-element list) is precisely the absolute evaluator's
num_return = 1 output. -/
theorem legacy_evaluator_refines_absolute :
    evaluator.SYSTEM_PROMPT = absolute_evaluator.DEFAULT_SYSTEM_PROMPT
    ∧ evaluator.USER_PROMPT = absolute_evaluator.USER_PROMPT
    ∧ (∀ image : Image,
        evaluator.GPTGraphicDesignEvaluator.imageToBase64Method image
          = image_to_base64 image)
    ∧ (∀ (s : Int) (e : String),
        resultOk (evaluator.mkEvaluationResult s e)
          = resultOk (absolute_evaluator.mkAbsoluteEvaluationResult s e))
    ∧ (∀ (llm : Request → ModelReply) (image : Image) (dpp : String)
         (tmpl : Option String),
        (evaluator.GPTGraphicDesignEvaluator.evaluate ⟨llm⟩ image dpp tmpl).map
            (fun r => [absolute_evaluator.AbsoluteEvaluationResult.mk
                          r.score r.explanation])
          = absolute_evaluator.GPTGraphicDesignAbsoluteEvaluator.evaluate
              ⟨llm⟩ image dpp tmpl 1) := by
  refine ⟨rfl, rfl, fun image => rfl, ?_, ?_⟩
  · intro s e
    unfold evaluator.mkEvaluationResult absolute_evaluator.mkAbsoluteEvaluationResult
    by_cases hc : 1 ≤ s ∧ s ≤ 10 <;> simp [hc, resultOk]
  · intro llm image dpp tmpl
    have hR : absolute_evaluator.GPTGraphicDesignAbsoluteEvaluator.evaluate
          ⟨llm⟩ image dpp tmpl 1
        = (absolute_evaluator.coerceAbsolute (llm (absolute_evaluator.composeRequest
              (resolveTemplate absolute_evaluator.DEFAULT_SYSTEM_PROMPT tmpl)
              (absolute_evaluator.input_data image dpp)))).map (fun y => [y]) := by
      apply batch_singleton
    rw [hR, ← coerce_agree, except_map_map]
    rfl
